import Mathlib

/-
Shallow embedding of the signoria-backend quiz-attempt tracker and user
registration service.  Database tables are modelled as Lean lists of rows;
each repository function mirrors one SQL statement of
app/repository/quiz_repository.py and app/repository/user_repository.py,
and each service function mirrors app/services/quiz_services.py and
app/services/user_services.py.  Timestamps (created_at, submitted_at,
SQL NOW()) are modelled as natural numbers supplied by the caller, uuid4
generation is modelled by an explicitly supplied fresh id, and Python
float percentages are modelled as exact rationals with Python round
(banker's rounding) at 2 decimals.  A Python ZeroDivisionError is
modelled by an explicit Except error.
-/

/-- Errors a service computation can raise (Python exceptions). -/
inductive PyErr where
  | zeroDivision
  | typeError
deriving DecidableEq, Repr

/-- Decidable equality of Except values, componentwise. -/
instance {e : Type} {a : Type} [DecidableEq e] [DecidableEq a] :
    DecidableEq (Except e a) := fun x y =>
  match x, y with
  | .ok u, .ok v =>
    if h : u = v then isTrue (by rw [h]) else isFalse (fun hc => h (by injection hc))
  | .error u, .error v =>
    if h : u = v then isTrue (by rw [h]) else isFalse (fun hc => h (by injection hc))
  | .ok _, .error _ => isFalse (fun hc => Except.noConfusion hc)
  | .error _, .ok _ => isFalse (fun hc => Except.noConfusion hc)

/-- Python round-half-to-even of a rational to an integer, computed on the
reduced numerator and denominator: f is the floor and r the remainder, and
the fraction part r / den is compared with 1/2 by cross-multiplication. -/
def pyRoundHalfEven (x : ℚ) : ℤ :=
  let f : ℤ := Int.fdiv x.num (x.den : ℤ)
  let r : ℤ := x.num - f * (x.den : ℤ)
  if 2 * r < (x.den : ℤ) then f
  else if (x.den : ℤ) < 2 * r then f + 1
  else if f % 2 = 0 then f else f + 1

/-- Python round(x, 2) over exact rationals. -/
def pyRound2 (x : ℚ) : ℚ :=
  (pyRoundHalfEven (x * 100) : ℚ) / 100

/-- Insert into a list sorted ascending by a Nat key (stable). -/
def insertByKey (k : α → Nat) (x : α) : List α → List α
  | [] => [x]
  | y :: ys => if k x ≤ k y then x :: y :: ys else y :: insertByKey k x ys

/-- Sort ascending by a Nat key; models SQL ORDER BY key ASC. -/
def sortByKey (k : α → Nat) : List α → List α
  | [] => []
  | x :: xs => insertByKey k x (sortByKey k xs)

/-- Insert into a list sorted descending by a Nat key (stable). -/
def insertByKeyDesc (k : α → Nat) (x : α) : List α → List α
  | [] => [x]
  | y :: ys => if k y ≤ k x then x :: y :: ys else y :: insertByKeyDesc k x ys

/-- Sort descending by a Nat key; models SQL ORDER BY key DESC. -/
def sortByKeyDesc (k : α → Nat) : List α → List α
  | [] => []
  | x :: xs => insertByKeyDesc k x (sortByKeyDesc k xs)

/-- Row of the quizzes table. -/
structure Quiz where
  id : String
  title : String
  description : Option String
  difficulty_level : String
  time_limit : Option Nat
  level : Nat
  created_at : Nat
deriving DecidableEq, Repr

/-- Row of the quiz_questions table. -/
structure Question where
  id : String
  quiz_id : String
  question_text : String
  question_category : String
  explanation : String
  created_at : Nat
deriving DecidableEq, Repr

/-- Row of the quiz_options table. -/
structure QuizOption where
  id : String
  question_id : String
  content : String
  category : String
  is_correct : Bool
  created_at : Nat
deriving DecidableEq, Repr

/-- Row of the attempts_quiz table. -/
structure Attempt where
  id : String
  quiz_id : String
  user_id : String
  score : Nat
  total_questions : Nat
  submitted_at : Nat
  is_completed : Bool
deriving DecidableEq, Repr

/-- Row of the attempts_quiz_answer table. -/
structure Answer where
  id : String
  attempt_id : String
  question_id : String
  selected_option_id : String
  created_at : Nat
deriving DecidableEq, Repr

/-- The relational store backing the quiz endpoints. -/
structure DB where
  quizzes : List Quiz
  questions : List Question
  qoptions : List QuizOption
  attempts : List Attempt
  answers : List Answer
deriving DecidableEq, Repr

/-- Result row of QuizRepository.get_attempt_progress: the attempt joined
with the COUNT of its answers; remaining_questions is a Python int
subtraction, hence an integer. -/
structure ProgressRow where
  id : String
  quiz_id : String
  user_id : String
  score : Nat
  total_questions : Nat
  answered_questions : Nat
  remaining_questions : Int
  submitted_at : Nat
  is_completed : Bool
deriving DecidableEq, Repr

/-- Row of QuizRepository.get_answered_questions_details (inner join of
answers with questions and options). -/
structure AnsweredDetail where
  answer_id : String
  attempt_id : String
  question_id : String
  selected_option_id : String
  question_text : String
  question_category : String
  selected_option_content : String
  is_correct : Bool
  answered_at : Nat
deriving DecidableEq, Repr

namespace QuizRepository

/-- SELECT from quizzes WHERE id = quiz_id, fetchone. -/
def get_quiz_by_id (db : DB) (quiz_id : String) : Option Quiz :=
  db.quizzes.find? (fun q => q.id == quiz_id)

/-- SELECT from quiz_questions WHERE quiz_id = quiz_id ORDER BY created_at ASC. -/
def get_questions_by_quiz (db : DB) (quiz_id : String) : List Question :=
  sortByKey (fun q => q.created_at) (db.questions.filter (fun q => q.quiz_id == quiz_id))

/-- SELECT from quiz_questions WHERE id = question_id, fetchone. -/
def get_question_by_id (db : DB) (question_id : String) : Option Question :=
  db.questions.find? (fun q => q.id == question_id)

/-- SELECT from quiz_options WHERE question_id = question_id ORDER BY created_at ASC. -/
def get_options_by_question (db : DB) (question_id : String) : List QuizOption :=
  sortByKey (fun o => o.created_at) (db.qoptions.filter (fun o => o.question_id == question_id))

/-- SELECT from quiz_options WHERE id = option_id, fetchone. -/
def get_option_by_id (db : DB) (option_id : String) : Option QuizOption :=
  db.qoptions.find? (fun o => o.id == option_id)

/-- INSERT INTO attempts_quiz with score 0, submitted_at NOW(), is_completed
false, RETURNING the inserted row.  INSERT .. RETURNING with fetchone always
yields the inserted row, so the dead `if result` None branch of the source is
not represented. -/
def create_attempt (db : DB) (attempt_id quiz_id user_id : String)
    (total_questions : Nat) (now : Nat) : Attempt × DB :=
  let att : Attempt :=
    { id := attempt_id, quiz_id := quiz_id, user_id := user_id, score := 0,
      total_questions := total_questions, submitted_at := now, is_completed := false }
  (att, { db with attempts := db.attempts ++ [att] })

/-- SELECT from attempts_quiz WHERE id = attempt_id, fetchone. -/
def get_attempt_by_id (db : DB) (attempt_id : String) : Option Attempt :=
  db.attempts.find? (fun a => a.id == attempt_id)

/-- INSERT INTO attempts_quiz_answer with created_at NOW(), RETURNING the row. -/
def create_attempt_answer (db : DB) (answer_id attempt_id question_id selected_option_id : String)
    (now : Nat) : Answer × DB :=
  let ans : Answer :=
    { id := answer_id, attempt_id := attempt_id, question_id := question_id,
      selected_option_id := selected_option_id, created_at := now }
  (ans, { db with answers := db.answers ++ [ans] })

/-- SELECT from attempts_quiz_answer WHERE attempt_id = attempt_id ORDER BY created_at ASC. -/
def get_attempt_answers (db : DB) (attempt_id : String) : List Answer :=
  sortByKey (fun a => a.created_at) (db.answers.filter (fun a => a.attempt_id == attempt_id))

/-- UPDATE attempts_quiz SET score, is_completed = true, submitted_at = NOW()
WHERE id = attempt_id RETURNING the updated row (fetchone). -/
def update_attempt_score (db : DB) (attempt_id : String) (score : Nat) (now : Nat) :
    Option Attempt × DB :=
  let attempts2 := db.attempts.map (fun a =>
    if a.id == attempt_id then
      { a with score := score, is_completed := true, submitted_at := now }
    else a)
  (attempts2.find? (fun a => a.id == attempt_id), { db with attempts := attempts2 })

/-- SELECT from attempts_quiz WHERE quiz_id AND user_id AND is_completed = false
ORDER BY submitted_at DESC LIMIT 1. -/
def get_ongoing_attempt (db : DB) (quiz_id user_id : String) : Option Attempt :=
  (sortByKeyDesc (fun a => a.submitted_at)
    (db.attempts.filter (fun a =>
      a.quiz_id == quiz_id && a.user_id == user_id && !a.is_completed))).head?

/-- Attempt row plus COUNT(*) of its answers; None when the attempt is absent. -/
def get_attempt_progress (db : DB) (attempt_id : String) : Option ProgressRow :=
  match db.attempts.find? (fun a => a.id == attempt_id) with
  | none => none
  | some a =>
    let answered_count := (db.answers.filter (fun x => x.attempt_id == attempt_id)).length
    some { id := a.id, quiz_id := a.quiz_id, user_id := a.user_id, score := a.score,
           total_questions := a.total_questions, answered_questions := answered_count,
           remaining_questions := (a.total_questions : Int) - (answered_count : Int),
           submitted_at := a.submitted_at, is_completed := a.is_completed }

/-- Answers of the attempt inner-joined with their question and option rows,
ordered by answer created_at ASC. -/
def get_answered_questions_details (db : DB) (attempt_id : String) : List AnsweredDetail :=
  (sortByKey (fun a => a.created_at) (db.answers.filter (fun a => a.attempt_id == attempt_id))).filterMap
    (fun ans =>
      match db.questions.find? (fun q => q.id == ans.question_id),
            db.qoptions.find? (fun o => o.id == ans.selected_option_id) with
      | some q, some o =>
        some { answer_id := ans.id, attempt_id := ans.attempt_id,
               question_id := ans.question_id, selected_option_id := ans.selected_option_id,
               question_text := q.question_text, question_category := q.question_category,
               selected_option_content := o.content, is_correct := o.is_correct,
               answered_at := ans.created_at }
      | _, _ => none)

/-- Modelled from the spec: QuizRepository.get_answer_by_attempt_question is
called from QuizService.submit_answer and QuizService.submit_camera_answer but
its definition is absent from the repository sources; per the spec, an Answer
is unique per (attempt, question) pair and this lookup returns the existing
answer row for that pair, if any. -/
def get_answer_by_attempt_question (db : DB) (attempt_id question_id : String) : Option Answer :=
  db.answers.find? (fun a => a.attempt_id == attempt_id && a.question_id == question_id)

end QuizRepository

/-- Structured code of the envelope returned by answer submission. -/
inductive SubmitCode where
  | SUCCESS
  | ATTEMPT_NOT_FOUND
  | ATTEMPT_COMPLETED
  | ANSWER_ALREADY_EXISTS
  | INVALID_DATA
  | QUESTION_NOT_FOUND
  | OPTION_NOT_FOUND
deriving DecidableEq, Repr

/-- Payload of the answer-submission envelope: absent, the echo of an
existing answer (duplicate case), the stored answer of submit_answer, or the
stored answer of submit_camera_answer. -/
inductive SubmitData where
  | noData
  | existingData (answer_id question_id attempt_id : String) (answered_at : Nat)
  | successData (answer_id attempt_id question_id selected_option_id : String) (is_correct : Bool)
  | cameraData (answer_id attempt_id question_id : String) (is_correct : Bool)
deriving DecidableEq, Repr

/-- The success/error envelope returned by submit_answer and
submit_camera_answer. -/
structure SubmitResult where
  error : Bool
  code : SubmitCode
  message : String
  data : SubmitData
deriving DecidableEq, Repr

/-- Response of QuizService.start_quiz_attempt. -/
structure StartResult where
  attempt_id : String
  quiz_id : String
  user_id : String
  total_questions : Nat
  is_completed : Bool
  is_resumed : Bool
deriving DecidableEq, Repr

/-- Response of QuizService.submit_quiz. -/
structure SubmitQuizResult where
  attempt_id : String
  quiz_id : String
  user_id : String
  score : Nat
  total_questions : Nat
  percentage : ℚ
  is_completed : Bool
  submitted_at : Nat
deriving DecidableEq, Repr

/-- Response of QuizService.get_attempt_progress. -/
structure AttemptProgress where
  attempt_id : String
  quiz_id : String
  user_id : String
  total_questions : Nat
  answered_questions : Nat
  remaining_questions : Int
  progress_percentage : ℚ
  is_completed : Bool
  answered_details : List AnsweredDetail
deriving DecidableEq, Repr

/-- One element of the answers breakdown of QuizService.get_attempt_result;
fields read off a possibly missing question or option row are optional, and
is_correct defaults to false when the option row is missing. -/
structure ResultAnswerDetail where
  question_id : String
  question_text : Option String
  question_category : Option String
  selected_option_id : String
  selected_option_content : Option String
  is_correct : Bool
  explanation : Option String
deriving DecidableEq, Repr

/-- Response of QuizService.get_attempt_result. -/
structure AttemptResult where
  attempt_id : String
  quiz_id : String
  user_id : String
  score : Nat
  total_questions : Nat
  percentage : ℚ
  is_completed : Bool
  submitted_at : Nat
  answers : List ResultAnswerDetail
deriving DecidableEq, Repr

/-- Option entry of the quiz-detail response: only id, content and category
are projected out of the option row. -/
structure OptionDetail where
  id : String
  content : String
  category : String
deriving DecidableEq, Repr

/-- Question entry of the quiz-detail response. -/
structure QuestionDetail where
  id : String
  question_text : String
  question_category : String
  explanation : String
  options : List OptionDetail
deriving DecidableEq, Repr

/-- Response of QuizService.get_quiz_details. -/
structure QuizDetails where
  id : String
  title : String
  description : Option String
  difficulty_level : String
  time_limit : Option Nat
  level : Nat
  created_at : Nat
  total_questions : Nat
  questions : List QuestionDetail
deriving DecidableEq, Repr

namespace QuizService

/-- The score loop of QuizService.submit_quiz: count the answers whose
selected option row exists and has is_correct true. -/
def count_correct (db : DB) (answers : List Answer) : Nat :=
  answers.countP (fun a =>
    match QuizRepository.get_option_by_id db a.selected_option_id with
    | some o => o.is_correct
    | none => false)

/-- QuizService.get_quiz_details. -/
def get_quiz_details (db : DB) (quiz_id : String) : Option QuizDetails :=
  match QuizRepository.get_quiz_by_id db quiz_id with
  | none => none
  | some quiz =>
    let questions := QuizRepository.get_questions_by_quiz db quiz_id
    let questions_data : List QuestionDetail := questions.map (fun q =>
      { id := q.id, question_text := q.question_text,
        question_category := q.question_category, explanation := q.explanation,
        options := (QuizRepository.get_options_by_question db q.id).map (fun o =>
          { id := o.id, content := o.content, category := o.category }) })
    some { id := quiz.id, title := quiz.title, description := quiz.description,
           difficulty_level := quiz.difficulty_level, time_limit := quiz.time_limit,
           level := quiz.level, created_at := quiz.created_at,
           total_questions := questions_data.length, questions := questions_data }

/-- QuizService.start_quiz_attempt; newAttemptId models the uuid4 value and
now models NOW(). -/
def start_quiz_attempt (db : DB) (newAttemptId : String) (now : Nat)
    (quiz_id user_id : String) : Option StartResult × DB :=
  match QuizRepository.get_quiz_by_id db quiz_id with
  | none => (none, db)
  | some _ =>
    match QuizRepository.get_ongoing_attempt db quiz_id user_id with
    | some ongoing =>
      (some { attempt_id := ongoing.id, quiz_id := ongoing.quiz_id,
              user_id := ongoing.user_id, total_questions := ongoing.total_questions,
              is_completed := ongoing.is_completed, is_resumed := true }, db)
    | none =>
      let questions := QuizRepository.get_questions_by_quiz db quiz_id
      let (att, db2) := QuizRepository.create_attempt db newAttemptId quiz_id user_id questions.length now
      (some { attempt_id := att.id, quiz_id := att.quiz_id, user_id := att.user_id,
              total_questions := att.total_questions, is_completed := att.is_completed,
              is_resumed := false }, db2)

/-- QuizService.submit_answer. -/
def submit_answer (db : DB) (newAnswerId : String) (now : Nat)
    (attempt_id question_id selected_option_id : String) : SubmitResult × DB :=
  match QuizRepository.get_attempt_by_id db attempt_id with
  | none =>
    ({ error := true, code := .ATTEMPT_NOT_FOUND, message := "Attempt not found",
       data := .noData }, db)
  | some attempt =>
    if attempt.is_completed then
      ({ error := true, code := .ATTEMPT_COMPLETED,
         message := "This quiz attempt has already been submitted. You cannot submit more answers.",
         data := .noData }, db)
    else
      match QuizRepository.get_answer_by_attempt_question db attempt_id question_id with
      | some existing =>
        ({ error := true, code := .ANSWER_ALREADY_EXISTS,
           message := "You have already answered this question. You cannot answer it twice.",
           data := .existingData existing.id question_id attempt_id existing.created_at }, db)
      | none =>
        match QuizRepository.get_question_by_id db question_id,
              QuizRepository.get_option_by_id db selected_option_id with
        | some _, some opt =>
          let (ans, db2) := QuizRepository.create_attempt_answer db newAnswerId attempt_id
            question_id selected_option_id now
          ({ error := false, code := .SUCCESS, message := "Answer submitted successfully",
             data := .successData ans.id ans.attempt_id ans.question_id
               ans.selected_option_id opt.is_correct }, db2)
        | _, _ =>
          ({ error := true, code := .INVALID_DATA, message := "Question or option not found",
             data := .noData }, db)

/-- QuizService.submit_camera_answer; the caller-supplied is_correct flag is
only echoed in the response while the stored row references the first listed
option of the question. -/
def submit_camera_answer (db : DB) (newAnswerId : String) (now : Nat)
    (attempt_id question_id : String) (is_correct : Bool) : SubmitResult × DB :=
  match QuizRepository.get_attempt_by_id db attempt_id with
  | none =>
    ({ error := true, code := .ATTEMPT_NOT_FOUND, message := "Attempt not found",
       data := .noData }, db)
  | some attempt =>
    if attempt.is_completed then
      ({ error := true, code := .ATTEMPT_COMPLETED,
         message := "This quiz attempt has already been submitted. You cannot submit more answers.",
         data := .noData }, db)
    else
      match QuizRepository.get_answer_by_attempt_question db attempt_id question_id with
      | some existing =>
        ({ error := true, code := .ANSWER_ALREADY_EXISTS,
           message := "You have already answered this question. You cannot answer it twice.",
           data := .existingData existing.id question_id attempt_id existing.created_at }, db)
      | none =>
        match QuizRepository.get_question_by_id db question_id with
        | none =>
          ({ error := true, code := .QUESTION_NOT_FOUND, message := "Question not found",
             data := .noData }, db)
        | some _ =>
          match (QuizRepository.get_options_by_question db question_id).head? with
          | none =>
            ({ error := true, code := .OPTION_NOT_FOUND, message := "Camera option not found",
               data := .noData }, db)
          | some camera_option =>
            let (ans, db2) := QuizRepository.create_attempt_answer db newAnswerId attempt_id
              question_id camera_option.id now
            ({ error := false, code := .SUCCESS,
               message := "Camera answer submitted successfully",
               data := .cameraData ans.id ans.attempt_id ans.question_id is_correct }, db2)

/-- QuizService.submit_quiz.  The score is recomputed from the recorded
answers and written back unconditionally; the percentage division is
unguarded, so total_questions = 0 raises ZeroDivisionError after the update
has already been committed. -/
def submit_quiz (db : DB) (now : Nat) (attempt_id : String) :
    DB × Except PyErr (Option SubmitQuizResult) :=
  match QuizRepository.get_attempt_by_id db attempt_id with
  | none => (db, .ok none)
  | some _ =>
    let answers := QuizRepository.get_attempt_answers db attempt_id
    let correct_count := count_correct db answers
    let (updated, db2) := QuizRepository.update_attempt_score db attempt_id correct_count now
    match updated with
    | none => (db2, .error .typeError)
    | some att =>
      if att.total_questions = 0 then (db2, .error .zeroDivision)
      else
        (db2, .ok (some
          { attempt_id := att.id, quiz_id := att.quiz_id, user_id := att.user_id,
            score := att.score, total_questions := att.total_questions,
            percentage := pyRound2 ((att.score : ℚ) / (att.total_questions : ℚ) * 100),
            is_completed := att.is_completed, submitted_at := att.submitted_at }))

/-- QuizService.get_attempt_progress; the percentage division only happens
under a total_questions > 0 guard, otherwise the percentage stays 0. -/
def get_attempt_progress (db : DB) (attempt_id : String) : Option AttemptProgress :=
  match QuizRepository.get_attempt_progress db attempt_id with
  | none => none
  | some p =>
    let answered_details := QuizRepository.get_answered_questions_details db attempt_id
    let progress_percentage : ℚ :=
      if p.total_questions > 0 then
        pyRound2 ((p.answered_questions : ℚ) / (p.total_questions : ℚ) * 100)
      else 0
    some { attempt_id := p.id, quiz_id := p.quiz_id, user_id := p.user_id,
           total_questions := p.total_questions,
           answered_questions := p.answered_questions,
           remaining_questions := p.remaining_questions,
           progress_percentage := progress_percentage,
           is_completed := p.is_completed, answered_details := answered_details }

/-- QuizService.get_attempt_result; the percentage division is unguarded, so
total_questions = 0 raises ZeroDivisionError. -/
def get_attempt_result (db : DB) (attempt_id : String) :
    Except PyErr (Option AttemptResult) :=
  match QuizRepository.get_attempt_by_id db attempt_id with
  | none => .ok none
  | some att =>
    let answers := QuizRepository.get_attempt_answers db attempt_id
    let answers_detail : List ResultAnswerDetail := answers.map (fun a =>
      let q := QuizRepository.get_question_by_id db a.question_id
      let o := QuizRepository.get_option_by_id db a.selected_option_id
      { question_id := a.question_id,
        question_text := q.map (fun x => x.question_text),
        question_category := q.map (fun x => x.question_category),
        selected_option_id := a.selected_option_id,
        selected_option_content := o.map (fun x => x.content),
        is_correct := match o with | some x => x.is_correct | none => false,
        explanation := q.map (fun x => x.explanation) })
    if att.total_questions = 0 then .error .zeroDivision
    else
      .ok (some
        { attempt_id := att.id, quiz_id := att.quiz_id, user_id := att.user_id,
          score := att.score, total_questions := att.total_questions,
          percentage := pyRound2 ((att.score : ℚ) / (att.total_questions : ℚ) * 100),
          is_completed := att.is_completed, submitted_at := att.submitted_at,
          answers := answers_detail })

end QuizService

/-- Row of the users table. -/
structure User where
  id : String
  email : String
  username : String
  hashed_password : String
  is_active : Bool
  created_at : Nat
  updated_at : Nat
deriving DecidableEq, Repr

/-- An HTTPException raised by the user service: status code and detail. -/
structure HttpError where
  status_code : Nat
  detail : String
deriving DecidableEq, Repr

namespace UserRepository

/-- SELECT from users WHERE email = email, fetchone. -/
def get_by_email (users : List User) (email : String) : Option User :=
  users.find? (fun u => u.email == email)

/-- SELECT from users WHERE username = username, fetchone. -/
def get_by_username (users : List User) (username : String) : Option User :=
  users.find? (fun u => u.username == username)

/-- INSERT INTO users with is_active TRUE and NOW() timestamps, RETURNING the
inserted row; newId models the uuid4 value. -/
def create (users : List User) (newId : String) (now : Nat)
    (email username hashed_password : String) : User × List User :=
  let u : User :=
    { id := newId, email := email, username := username,
      hashed_password := hashed_password, is_active := true,
      created_at := now, updated_at := now }
  (u, users ++ [u])

end UserRepository

namespace UserService

/-- UserService.register: reject a taken email, then a taken username, each
with HTTP 400 and a fixed detail message, otherwise hash the password and
insert the user; hashFn models the external password hasher.  Token issuing
and cookie setting are external to the store and not modelled. -/
def register (users : List User) (newId : String) (now : Nat)
    (hashFn : String → String) (email username password : String) :
    Except HttpError User × List User :=
  if (UserRepository.get_by_email users email).isSome then
    (.error { status_code := 400, detail := "Email already registered" }, users)
  else if (UserRepository.get_by_username users username).isSome then
    (.error { status_code := 400, detail := "Username already taken" }, users)
  else
    let hashed := hashFn password
    let (u, users2) := UserRepository.create users newId now email username hashed
    (.ok u, users2)

end UserService

/-- Relabelling of the correctness flags of every option row; used to state
that the quiz-detail response does not depend on them. -/
def relabelCorrect (db : DB) (f : QuizOption → Bool) : DB :=
  { db with qoptions := db.qoptions.map (fun o => { o with is_correct := f o }) }

/-- Fixture: a quiz with one image question and one camera question. -/
def sampleQuiz : Quiz :=
  { id := "quiz1", title := "Quiz Level 1", description := none,
    difficulty_level := "medium", time_limit := none, level := 1, created_at := 0 }

/-- Fixture: the image-alphabet question of sampleQuiz. -/
def sampleQues1 : Question :=
  { id := "ques1", quiz_id := "quiz1", question_text := "A.jpg",
    question_category := "image_alphabet", explanation := "", created_at := 0 }

/-- Fixture: the camera-based question of sampleQuiz. -/
def sampleQues2 : Question :=
  { id := "ques2", quiz_id := "quiz1", question_text := "show C",
    question_category := "camera_based", explanation := "", created_at := 1 }

/-- Fixture: correct option of ques1. -/
def sampleOptA : QuizOption :=
  { id := "optA", question_id := "ques1", content := "A", category := "text",
    is_correct := true, created_at := 0 }

/-- Fixture: wrong option of ques1. -/
def sampleOptB : QuizOption :=
  { id := "optB", question_id := "ques1", content := "B", category := "text",
    is_correct := false, created_at := 1 }

/-- Fixture: placeholder option of the camera question ques2. -/
def sampleOptC : QuizOption :=
  { id := "optC", question_id := "ques2", content := "C", category := "camera",
    is_correct := false, created_at := 0 }

/-- Fixture: an ongoing attempt of user1 on quiz1 with 2 questions. -/
def sampleAttempt : Attempt :=
  { id := "att1", quiz_id := "quiz1", user_id := "user1", score := 0,
    total_questions := 2, submitted_at := 0, is_completed := false }

/-- Fixture: base database with no recorded answers. -/
def sampleDB : DB :=
  { quizzes := [sampleQuiz], questions := [sampleQues1, sampleQues2],
    qoptions := [sampleOptA, sampleOptB, sampleOptC],
    attempts := [sampleAttempt], answers := [] }

/-- Fixture: answer of att1 picking the correct option of ques1. -/
def sampleAns1 : Answer :=
  { id := "ans1", attempt_id := "att1", question_id := "ques1",
    selected_option_id := "optA", created_at := 3 }

/-- Fixture: sampleDB with one recorded answer. -/
def sampleDBA : DB := { sampleDB with answers := [sampleAns1] }

/-- Fixture: sampleDBA with the attempt already completed. -/
def sampleDBC : DB :=
  { sampleDBA with attempts := [{ sampleAttempt with is_completed := true, score := 1 }] }

/-- Fixture: an attempt on quiz1 with a 10 question snapshot and none answered. -/
def attemptTen : Attempt :=
  { id := "att10", quiz_id := "quiz1", user_id := "user1", score := 0,
    total_questions := 10, submitted_at := 0, is_completed := false }

/-- Fixture: database holding attemptTen with no answers. -/
def dbTenZero : DB :=
  { quizzes := [sampleQuiz], questions := [], qoptions := [],
    attempts := [attemptTen], answers := [] }

/-- Fixture: ten answer rows for attemptTen on ten distinct questions. -/
def tenAnswers : List Answer :=
  (List.range 10).map (fun i =>
    { id := "a".append (toString i), attempt_id := "att10",
      question_id := "q".append (toString i),
      selected_option_id := "o".append (toString i), created_at := i })

/-- Fixture: database holding attemptTen with all ten questions answered. -/
def dbTenFull : DB := { dbTenZero with answers := tenAnswers }

/-- Fixture: an attempt whose total_questions snapshot is 0. -/
def attemptZero : Attempt :=
  { id := "att0", quiz_id := "quiz1", user_id := "user1", score := 0,
    total_questions := 0, submitted_at := 0, is_completed := false }

/-- Fixture: database holding attemptZero. -/
def dbZero : DB :=
  { quizzes := [sampleQuiz], questions := [], qoptions := [],
    attempts := [attemptZero], answers := [] }

/-- Fixture: a registered user. -/
def sampleUser : User :=
  { id := "user1", email := "a@x.com", username := "alice",
    hashed_password := "h", is_active := true, created_at := 0, updated_at := 0 }

/-- Fixture: user table holding sampleUser. -/
def sampleUsers : List User := [sampleUser]

/-- If no element of the first list satisfies the predicate, find? over the
concatenation searches the second list. -/
theorem find?_append_of_none {α} (p : α → Bool) (l1 l2 : List α)
    (h : l1.find? p = none) : (l1 ++ l2).find? p = l2.find? p := by
  induction l1 with
  | nil => rfl
  | cons x xs ih =>
    by_cases hx : p x
    · rw [List.find?_cons_of_pos xs hx] at h
      exact absurd h (by simp)
    · rw [List.find?_cons_of_neg xs hx] at h
      rw [List.cons_append, List.find?_cons_of_neg _ hx]
      exact ih h

/-- A list none of whose elements satisfies the predicate filters to nil. -/
theorem filter_eq_nil_of_find?_none {α} (p : α → Bool) (l : List α)
    (h : l.find? p = none) : l.filter p = [] := by
  rw [List.find?_eq_none] at h
  induction l with
  | nil => rfl
  | cons x xs ih =>
    rw [List.filter_cons]
    have hx : ¬ p x = true := h x (by simp)
    simp only [hx, if_neg]
    exact ih (fun a ha => h a (List.mem_cons_of_mem x ha))

/-- Ordered insertion preserves countP. -/
theorem countP_insertByKey {α} (k : α → Nat) (p : α → Bool) (x : α) (l : List α) :
    (insertByKey k x l).countP p = (x :: l).countP p := by
  induction l with
  | nil => rfl
  | cons y ys ih =>
    unfold insertByKey
    by_cases hk : k x ≤ k y
    · simp [hk]
    · simp only [hk, if_neg, not_false_iff, List.countP_cons, ih]
      omega

/-- Sorting by a key preserves countP. -/
theorem countP_sortByKey {α} (k : α → Nat) (p : α → Bool) (l : List α) :
    (sortByKey k l).countP p = l.countP p := by
  induction l with
  | nil => rfl
  | cons x xs ih =>
    unfold sortByKey
    rw [countP_insertByKey, List.countP_cons, List.countP_cons, ih]

/-- Descending ordered insertion never yields the empty list. -/
theorem insertByKeyDesc_ne_nil {α} (k : α → Nat) (x : α) (l : List α) :
    insertByKeyDesc k x l ≠ [] := by
  cases l with
  | nil => simp [insertByKeyDesc]
  | cons y ys =>
    unfold insertByKeyDesc
    by_cases hk : k y ≤ k x <;> simp [hk]

/-- Descending sort yields nil only on nil. -/
theorem sortByKeyDesc_eq_nil_iff {α} (k : α → Nat) (l : List α) :
    sortByKeyDesc k l = [] ↔ l = [] := by
  cases l with
  | nil => simp [sortByKeyDesc]
  | cons x xs =>
    unfold sortByKeyDesc
    simp [insertByKeyDesc_ne_nil]

/-- Ordered insertion commutes with mapping a key-preserving function. -/
theorem insertByKey_map {α} (k : α → Nat) (g : α → α) (hk : ∀ a, k (g a) = k a)
    (x : α) (l : List α) :
    (insertByKey k x l).map g = insertByKey k (g x) (l.map g) := by
  induction l with
  | nil => rfl
  | cons y ys ih =>
    unfold insertByKey
    by_cases h : k x ≤ k y
    · simp only [h, if_pos, List.map_cons]
      rw [if_pos (by rw [hk, hk]; exact h)]
    · simp only [h, if_neg, not_false_iff, List.map_cons, ih]
      rw [if_neg (by rw [hk, hk]; exact h)]

/-- Sorting commutes with mapping a key-preserving function. -/
theorem sortByKey_map {α} (k : α → Nat) (g : α → α) (hk : ∀ a, k (g a) = k a)
    (l : List α) : (sortByKey k l).map g = sortByKey k (l.map g) := by
  induction l with
  | nil => rfl
  | cons x xs ih =>
    simp only [List.map_cons, sortByKey]
    rw [insertByKey_map k g hk, ih]

/-- Filtering by a predicate the mapped function preserves commutes with map. -/
theorem filter_map_comm {α} (p : α → Bool) (g : α → α) (hp : ∀ a, p (g a) = p a)
    (l : List α) : (l.map g).filter p = (l.filter p).map g := by
  induction l with
  | nil => rfl
  | cons x xs ih =>
    rw [List.map_cons, List.filter_cons, List.filter_cons, hp]
    by_cases hx : p x
    · simp [hx, ih]
    · simp [hx, ih]

/-- find? over a list mapped by an id-targeted update returns the updated row. -/
theorem find?_map_update (l : List Attempt) (aid : String) (g : Attempt → Attempt)
    (hg : ∀ a, (g a).id = a.id) (att : Attempt)
    (h : l.find? (fun a => a.id == aid) = some att) :
    (l.map (fun a => if a.id == aid then g a else a)).find? (fun a => a.id == aid)
      = some (g att) := by
  induction l with
  | nil => exact absurd h (by simp)
  | cons x xs ih =>
    by_cases hx : (x.id == aid) = true
    · rw [List.find?_cons_of_pos xs hx] at h
      obtain rfl : x = att := by injection h
      rw [List.map_cons, if_pos hx, List.find?_cons_of_pos _ (by rw [hg]; exact hx)]
    · rw [List.find?_cons_of_neg xs hx] at h
      rw [List.map_cons, if_neg hx,
        List.find?_cons_of_neg (p := fun a : Attempt => a.id == aid) _ hx]
      exact ih h

/-- The database produced by submit_quiz on an existing attempt: the attempt
row is overwritten with the recomputed score, is_completed true and a fresh
submitted_at, in every branch of the response computation. -/
theorem submit_quiz_fst (db : DB) (now : Nat) (aid : String) (att : Attempt)
    (hatt : QuizRepository.get_attempt_by_id db aid = some att) :
    (QuizService.submit_quiz db now aid).1 =
      { db with attempts := db.attempts.map (fun a =>
          if a.id == aid then
            { a with
              score := QuizService.count_correct db (QuizRepository.get_attempt_answers db aid),
              is_completed := true, submitted_at := now }
          else a) } := by
  simp only [QuizService.submit_quiz, hatt, QuizRepository.update_attempt_score]
  split
  · simp
  · split <;> simp

/-- C2: for every existing attempt (with a nonzero question snapshot, as the
schema's CHECK total_questions > 0 guarantees), SubmitQuiz sets the attempt's
score to the number of recorded Answers whose selected option has is_correct
true, marks the attempt completed, and returns percentage = 100 * score /
total_questions rounded to 2 decimals. -/
theorem c2_submit_quiz_score_and_percentage (db : DB) (now : Nat) (aid : String)
    (att : Attempt)
    (hatt : QuizRepository.get_attempt_by_id db aid = some att)
    (htot : att.total_questions ≠ 0) :
    (QuizService.submit_quiz db now aid).2 =
      Except.ok (some
        { attempt_id := att.id, quiz_id := att.quiz_id, user_id := att.user_id,
          score := QuizService.count_correct db (QuizRepository.get_attempt_answers db aid),
          total_questions := att.total_questions,
          percentage := pyRound2 (100 *
            (QuizService.count_correct db (QuizRepository.get_attempt_answers db aid) : ℚ)
            / (att.total_questions : ℚ)),
          is_completed := true, submitted_at := now }) ∧
    QuizRepository.get_attempt_by_id (QuizService.submit_quiz db now aid).1 aid =
      some { att with
        score := QuizService.count_correct db (QuizRepository.get_attempt_answers db aid),
        is_completed := true, submitted_at := now } := by
  have hupd := find?_map_update db.attempts aid
    (fun a => { a with
      score := QuizService.count_correct db (QuizRepository.get_attempt_answers db aid),
      is_completed := true, submitted_at := now }) (fun a => rfl) att hatt
  constructor
  · simp only [QuizService.submit_quiz, hatt, QuizRepository.update_attempt_score]
    rw [hupd]
    simp only []
    rw [if_neg htot]
    have harith :
        ((QuizService.count_correct db (QuizRepository.get_attempt_answers db aid) : ℚ)
          / (att.total_questions : ℚ) * 100)
        = 100 * (QuizService.count_correct db (QuizRepository.get_attempt_answers db aid) : ℚ)
          / (att.total_questions : ℚ) := by ring
    simp [harith]
  · rw [submit_quiz_fst db now aid att hatt]
    exact hupd

/-- pyRoundHalfEven is the identity on integers. -/
theorem pyRoundHalfEven_intCast (m : ℤ) : pyRoundHalfEven ((m : ℚ)) = m := by
  unfold pyRoundHalfEven
  rw [Rat.intCast_num, Rat.intCast_den]
  simp [Int.fdiv_one]

/-- pyRound2 is the identity on integer-valued rationals. -/
theorem pyRound2_intCast (m : ℤ) : pyRound2 ((m : ℚ)) = m := by
  unfold pyRound2
  have h : ((m : ℚ)) * 100 = (((m * 100 : ℤ)) : ℚ) := by push_cast; ring
  rw [h, pyRoundHalfEven_intCast]
  push_cast
  ring

/-- pyRound2 is the identity on natural-valued rationals. -/
theorem pyRound2_natCast (n : ℕ) : pyRound2 ((n : ℚ)) = n := by
  have h : ((n : ℚ)) = (((n : ℤ)) : ℚ) := by push_cast; ring
  rw [h, pyRound2_intCast]

/-- Evaluation of the rounded percentage at an exact fraction: when
100 * a = c * b with b nonzero, the rounded percentage of a out of b is c. -/
theorem pyRound2_nat_frac (a b c : ℕ) (hb : b ≠ 0) (h : 100 * a = c * b) :
    pyRound2 (100 * (a : ℚ) / (b : ℚ)) = c := by
  have hbq : (b : ℚ) ≠ 0 := by exact_mod_cast hb
  have hv : 100 * (a : ℚ) / (b : ℚ) = (c : ℚ) := by
    field_simp
    exact_mod_cast h
  rw [hv, pyRound2_natCast]

/-- Witness for C2: on the sample database with one correct recorded answer,
SubmitQuiz returns score 1 of 2, percentage 50, and stores the completed
attempt. -/
theorem c2_submit_quiz_score_and_percentage_witness :
    QuizRepository.get_attempt_by_id sampleDBA "att1" = some sampleAttempt ∧
    sampleAttempt.total_questions ≠ 0 ∧
    ((QuizService.submit_quiz sampleDBA 7 "att1").2 =
      Except.ok (some
        { attempt_id := "att1", quiz_id := "quiz1", user_id := "user1",
          score := 1, total_questions := 2, percentage := ((50 : ℕ) : ℚ),
          is_completed := true, submitted_at := 7 }) ∧
    QuizRepository.get_attempt_by_id (QuizService.submit_quiz sampleDBA 7 "att1").1 "att1" =
      some { id := "att1", quiz_id := "quiz1", user_id := "user1", score := 1,
             total_questions := 2, submitted_at := 7, is_completed := true }) := by
  have hcc : QuizService.count_correct sampleDBA
      (QuizRepository.get_attempt_answers sampleDBA "att1") = 1 := by decide
  have h := c2_submit_quiz_score_and_percentage sampleDBA 7 "att1" sampleAttempt
    (by decide) (by decide)
  rw [hcc] at h
  simp only [sampleAttempt] at h
  rw [pyRound2_nat_frac 1 2 50 (by decide) (by decide)] at h
  exact ⟨by decide, by decide, h⟩

/-- C3: SubmitQuiz is not idempotent: for every attempt already completed
(whose snapshot is nonzero, as the schema CHECK guarantees), calling
SubmitQuiz again does not fail and does not return a stored prior result: it
recomputes the score from the recorded answers and overwrites the stored
score and submitted_at timestamp. -/
theorem c3_submit_quiz_recomputes_after_completion (db : DB) (now : Nat)
    (aid : String) (att : Attempt)
    (hatt : QuizRepository.get_attempt_by_id db aid = some att)
    (hcomp : att.is_completed = true)
    (htot : att.total_questions ≠ 0) :
    (QuizService.submit_quiz db now aid).2 =
      Except.ok (some
        { attempt_id := att.id, quiz_id := att.quiz_id, user_id := att.user_id,
          score := QuizService.count_correct db (QuizRepository.get_attempt_answers db aid),
          total_questions := att.total_questions,
          percentage := pyRound2 (100 *
            (QuizService.count_correct db (QuizRepository.get_attempt_answers db aid) : ℚ)
            / (att.total_questions : ℚ)),
          is_completed := true, submitted_at := now }) ∧
    QuizRepository.get_attempt_by_id (QuizService.submit_quiz db now aid).1 aid =
      some { att with
        score := QuizService.count_correct db (QuizRepository.get_attempt_answers db aid),
        is_completed := true, submitted_at := now } := by
  have hupd := find?_map_update db.attempts aid
    (fun a => { a with
      score := QuizService.count_correct db (QuizRepository.get_attempt_answers db aid),
      is_completed := true, submitted_at := now }) (fun a => rfl) att hatt
  constructor
  · simp only [QuizService.submit_quiz, hatt, QuizRepository.update_attempt_score]
    rw [hupd]
    simp only []
    rw [if_neg htot]
    have harith :
        ((QuizService.count_correct db (QuizRepository.get_attempt_answers db aid) : ℚ)
          / (att.total_questions : ℚ) * 100)
        = 100 * (QuizService.count_correct db (QuizRepository.get_attempt_answers db aid) : ℚ)
          / (att.total_questions : ℚ) := by ring
    simp [harith]
  · rw [submit_quiz_fst db now aid att hatt]
    exact hupd

/-- Witness for C3: re-submitting the already completed sample attempt
succeeds again and overwrites score and submitted_at with fresh values. -/
theorem c3_submit_quiz_recomputes_after_completion_witness :
    QuizRepository.get_attempt_by_id sampleDBC "att1" =
      some { sampleAttempt with is_completed := true, score := 1 } ∧
    ((QuizService.submit_quiz sampleDBC 9 "att1").2 =
      Except.ok (some
        { attempt_id := "att1", quiz_id := "quiz1", user_id := "user1",
          score := 1, total_questions := 2, percentage := ((50 : ℕ) : ℚ),
          is_completed := true, submitted_at := 9 }) ∧
    QuizRepository.get_attempt_by_id (QuizService.submit_quiz sampleDBC 9 "att1").1 "att1" =
      some { id := "att1", quiz_id := "quiz1", user_id := "user1", score := 1,
             total_questions := 2, submitted_at := 9, is_completed := true }) := by
  have hcc : QuizService.count_correct sampleDBC
      (QuizRepository.get_attempt_answers sampleDBC "att1") = 1 := by decide
  have h := c3_submit_quiz_recomputes_after_completion sampleDBC 9 "att1"
    { sampleAttempt with is_completed := true, score := 1 } (by decide) (by decide) (by decide)
  rw [hcc] at h
  simp only [sampleAttempt] at h
  rw [pyRound2_nat_frac 1 2 50 (by decide) (by decide)] at h
  exact ⟨by decide, h⟩

/-- The attempt row after submit_quiz is found completed. -/
theorem get_attempt_after_submit_quiz (db : DB) (now : Nat) (aid : String)
    (att : Attempt)
    (hatt : QuizRepository.get_attempt_by_id db aid = some att) :
    QuizRepository.get_attempt_by_id (QuizService.submit_quiz db now aid).1 aid =
      some { att with
        score := QuizService.count_correct db (QuizRepository.get_attempt_answers db aid),
        is_completed := true, submitted_at := now } := by
  rw [submit_quiz_fst db now aid att hatt]
  exact find?_map_update db.attempts aid
    (fun a => { a with
      score := QuizService.count_correct db (QuizRepository.get_attempt_answers db aid),
      is_completed := true, submitted_at := now }) (fun a => rfl) att hatt

/-- C4: for every attempt completed via SubmitQuiz, any subsequent
SubmitAnswer or SubmitCameraAnswer call on that attempt fails with code
ATTEMPT_COMPLETED and records no Answer row. -/
theorem c4_completed_attempt_rejects_answers (db : DB) (now now2 : Nat)
    (newId : String) (aid qid oid : String) (b : Bool) (att : Attempt)
    (hatt : QuizRepository.get_attempt_by_id db aid = some att) :
    (QuizService.submit_answer (QuizService.submit_quiz db now aid).1 newId now2
        aid qid oid).1.code = SubmitCode.ATTEMPT_COMPLETED ∧
    (QuizService.submit_answer (QuizService.submit_quiz db now aid).1 newId now2
        aid qid oid).1.error = true ∧
    (QuizService.submit_answer (QuizService.submit_quiz db now aid).1 newId now2
        aid qid oid).2 = (QuizService.submit_quiz db now aid).1 ∧
    (QuizService.submit_camera_answer (QuizService.submit_quiz db now aid).1 newId now2
        aid qid b).1.code = SubmitCode.ATTEMPT_COMPLETED ∧
    (QuizService.submit_camera_answer (QuizService.submit_quiz db now aid).1 newId now2
        aid qid b).1.error = true ∧
    (QuizService.submit_camera_answer (QuizService.submit_quiz db now aid).1 newId now2
        aid qid b).2 = (QuizService.submit_quiz db now aid).1 := by
  have hfound := get_attempt_after_submit_quiz db now aid att hatt
  refine ⟨?_, ?_, ?_, ?_, ?_, ?_⟩ <;>
    simp [QuizService.submit_answer, QuizService.submit_camera_answer, hfound]

/-- Witness for C4: after submitting the sample attempt, both answer
endpoints reject with ATTEMPT_COMPLETED and leave the database unchanged. -/
theorem c4_completed_attempt_rejects_answers_witness :
    QuizRepository.get_attempt_by_id sampleDBA "att1" = some sampleAttempt ∧
    ((QuizService.submit_answer (QuizService.submit_quiz sampleDBA 7 "att1").1 "ans2" 8
        "att1" "ques2" "optC").1.code = SubmitCode.ATTEMPT_COMPLETED ∧
    (QuizService.submit_answer (QuizService.submit_quiz sampleDBA 7 "att1").1 "ans2" 8
        "att1" "ques2" "optC").1.error = true ∧
    (QuizService.submit_answer (QuizService.submit_quiz sampleDBA 7 "att1").1 "ans2" 8
        "att1" "ques2" "optC").2 = (QuizService.submit_quiz sampleDBA 7 "att1").1 ∧
    (QuizService.submit_camera_answer (QuizService.submit_quiz sampleDBA 7 "att1").1 "ans2" 8
        "att1" "ques2" true).1.code = SubmitCode.ATTEMPT_COMPLETED ∧
    (QuizService.submit_camera_answer (QuizService.submit_quiz sampleDBA 7 "att1").1 "ans2" 8
        "att1" "ques2" true).1.error = true ∧
    (QuizService.submit_camera_answer (QuizService.submit_quiz sampleDBA 7 "att1").1 "ans2" 8
        "att1" "ques2" true).2 = (QuizService.submit_quiz sampleDBA 7 "att1").1) :=
  ⟨by decide, c4_completed_attempt_rejects_answers sampleDBA 7 8 "ans2" "att1" "ques2"
    "optC" true sampleAttempt (by decide)⟩

/-- C1: submitting an answer for a fresh (attempt, question) pair succeeds
and inserts exactly one Answer row; submitting again for the same pair (with
any option) returns the ANSWER_ALREADY_EXISTS conflict, writes nothing, and
the first answer remains the only one recorded for the pair. -/
theorem c1_second_submit_answer_conflicts (db : DB) (id1 id2 : String)
    (now1 now2 : Nat) (aid qid oid oid2 : String) (att : Attempt) (q : Question)
    (opt : QuizOption)
    (hatt : QuizRepository.get_attempt_by_id db aid = some att)
    (hdone : att.is_completed = false)
    (hnone : QuizRepository.get_answer_by_attempt_question db aid qid = none)
    (hq : QuizRepository.get_question_by_id db qid = some q)
    (ho : QuizRepository.get_option_by_id db oid = some opt) :
    (QuizService.submit_answer db id1 now1 aid qid oid).1.code = SubmitCode.SUCCESS ∧
    (QuizService.submit_answer db id1 now1 aid qid oid).2.answers =
      db.answers ++ [{ id := id1, attempt_id := aid, question_id := qid,
                       selected_option_id := oid, created_at := now1 }] ∧
    (QuizService.submit_answer (QuizService.submit_answer db id1 now1 aid qid oid).2
        id2 now2 aid qid oid2).1.code = SubmitCode.ANSWER_ALREADY_EXISTS ∧
    (QuizService.submit_answer (QuizService.submit_answer db id1 now1 aid qid oid).2
        id2 now2 aid qid oid2).1.error = true ∧
    (QuizService.submit_answer (QuizService.submit_answer db id1 now1 aid qid oid).2
        id2 now2 aid qid oid2).2 = (QuizService.submit_answer db id1 now1 aid qid oid).2 ∧
    ((QuizService.submit_answer db id1 now1 aid qid oid).2.answers.filter
        (fun a => a.attempt_id == aid && a.question_id == qid)).length = 1 := by
  have hfst : QuizService.submit_answer db id1 now1 aid qid oid =
      ({ error := false, code := .SUCCESS, message := "Answer submitted successfully",
         data := .successData id1 aid qid oid opt.is_correct },
       { db with answers := db.answers ++
          [{ id := id1, attempt_id := aid, question_id := qid,
             selected_option_id := oid, created_at := now1 }] }) := by
    simp [QuizService.submit_answer, hatt, hdone, hnone, hq, ho,
      QuizRepository.create_attempt_answer]
  rw [hfst]
  have hnone' : db.answers.find?
      (fun a => a.attempt_id == aid && a.question_id == qid) = none := hnone
  have hdup : QuizRepository.get_answer_by_attempt_question
      { db with answers := db.answers ++
        [{ id := id1, attempt_id := aid, question_id := qid,
           selected_option_id := oid, created_at := now1 }] } aid qid =
      some { id := id1, attempt_id := aid, question_id := qid,
             selected_option_id := oid, created_at := now1 } := by
    unfold QuizRepository.get_answer_by_attempt_question
    rw [find?_append_of_none _ _ _ hnone']
    simp
  have hsnd : QuizService.submit_answer
      { db with answers := db.answers ++
        [{ id := id1, attempt_id := aid, question_id := qid,
           selected_option_id := oid, created_at := now1 }] } id2 now2 aid qid oid2 =
      ({ error := true, code := .ANSWER_ALREADY_EXISTS,
         message := "You have already answered this question. You cannot answer it twice.",
         data := .existingData id1 qid aid now1 },
       { db with answers := db.answers ++
          [{ id := id1, attempt_id := aid, question_id := qid,
             selected_option_id := oid, created_at := now1 }] }) := by
    have hatt' : db.attempts.find? (fun a => a.id == aid) = some att := hatt
    simp [QuizService.submit_answer, QuizRepository.get_attempt_by_id, hatt', hdone, hdup]
  rw [hsnd]
  refine ⟨rfl, rfl, rfl, rfl, rfl, ?_⟩
  rw [List.filter_append, filter_eq_nil_of_find?_none _ _ hnone']
  simp

/-- Witness for C1: answering ques1 on the fresh sample attempt succeeds, and
answering it a second time is rejected as a duplicate with no second row. -/
theorem c1_second_submit_answer_conflicts_witness :
    QuizRepository.get_attempt_by_id sampleDB "att1" = some sampleAttempt ∧
    sampleAttempt.is_completed = false ∧
    QuizRepository.get_answer_by_attempt_question sampleDB "att1" "ques1" = none ∧
    QuizRepository.get_question_by_id sampleDB "ques1" = some sampleQues1 ∧
    QuizRepository.get_option_by_id sampleDB "optA" = some sampleOptA ∧
    ((QuizService.submit_answer sampleDB "ans1" 3 "att1" "ques1" "optA").1.code =
        SubmitCode.SUCCESS ∧
    (QuizService.submit_answer sampleDB "ans1" 3 "att1" "ques1" "optA").2.answers =
      sampleDB.answers ++ [{ id := "ans1", attempt_id := "att1", question_id := "ques1",
                             selected_option_id := "optA", created_at := 3 }] ∧
    (QuizService.submit_answer (QuizService.submit_answer sampleDB "ans1" 3 "att1"
        "ques1" "optA").2 "ans2" 4 "att1" "ques1" "optB").1.code =
      SubmitCode.ANSWER_ALREADY_EXISTS ∧
    (QuizService.submit_answer (QuizService.submit_answer sampleDB "ans1" 3 "att1"
        "ques1" "optA").2 "ans2" 4 "att1" "ques1" "optB").1.error = true ∧
    (QuizService.submit_answer (QuizService.submit_answer sampleDB "ans1" 3 "att1"
        "ques1" "optA").2 "ans2" 4 "att1" "ques1" "optB").2 =
      (QuizService.submit_answer sampleDB "ans1" 3 "att1" "ques1" "optA").2 ∧
    ((QuizService.submit_answer sampleDB "ans1" 3 "att1" "ques1" "optA").2.answers.filter
        (fun a => a.attempt_id == "att1" && a.question_id == "ques1")).length = 1) :=
  ⟨by decide, by decide, by decide, by decide, by decide,
    c1_second_submit_answer_conflicts sampleDB "ans1" "ans2" 3 4 "att1" "ques1" "optA"
      "optB" sampleAttempt sampleQues1 sampleOptA
      (by decide) (by decide) (by decide) (by decide) (by decide)⟩

/-- C5: StartOrResume returns NotFound (None) for an unknown quiz; when no
ongoing attempt exists it creates exactly one new Attempt row with score 0
and the quiz's current question count and returns is_resumed false, and a
repeat call then returns the same attempt_id with is_resumed true and
creates no new row; when an ongoing attempt exists it is returned with
is_resumed true and the database is unchanged. -/
theorem c5_start_or_resume_idempotent (db : DB) (id1 id2 : String)
    (now1 now2 : Nat) (qid uid : String) :
    (QuizRepository.get_quiz_by_id db qid = none →
      QuizService.start_quiz_attempt db id1 now1 qid uid = (none, db)) ∧
    (∀ quiz : Quiz, QuizRepository.get_quiz_by_id db qid = some quiz →
      QuizRepository.get_ongoing_attempt db qid uid = none →
      QuizService.start_quiz_attempt db id1 now1 qid uid =
        (some { attempt_id := id1, quiz_id := qid, user_id := uid,
                total_questions := (QuizRepository.get_questions_by_quiz db qid).length,
                is_completed := false, is_resumed := false },
         { db with attempts := db.attempts ++
            [{ id := id1, quiz_id := qid, user_id := uid, score := 0,
               total_questions := (QuizRepository.get_questions_by_quiz db qid).length,
               submitted_at := now1, is_completed := false }] }) ∧
      QuizService.start_quiz_attempt
          (QuizService.start_quiz_attempt db id1 now1 qid uid).2 id2 now2 qid uid =
        (some { attempt_id := id1, quiz_id := qid, user_id := uid,
                total_questions := (QuizRepository.get_questions_by_quiz db qid).length,
                is_completed := false, is_resumed := true },
         (QuizService.start_quiz_attempt db id1 now1 qid uid).2)) ∧
    (∀ (quiz : Quiz) (a : Attempt), QuizRepository.get_quiz_by_id db qid = some quiz →
      QuizRepository.get_ongoing_attempt db qid uid = some a →
      QuizService.start_quiz_attempt db id1 now1 qid uid =
        (some { attempt_id := a.id, quiz_id := a.quiz_id, user_id := a.user_id,
                total_questions := a.total_questions, is_completed := a.is_completed,
                is_resumed := true }, db)) := by
  refine ⟨?_, ?_, ?_⟩
  · intro h
    simp [QuizService.start_quiz_attempt, h]
  · intro quiz hq hno
    have hfilter : db.attempts.filter
        (fun a => a.quiz_id == qid && a.user_id == uid && !a.is_completed) = [] := by
      unfold QuizRepository.get_ongoing_attempt at hno
      rw [List.head?_eq_none_iff, sortByKeyDesc_eq_nil_iff] at hno
      exact hno
    have hfst : QuizService.start_quiz_attempt db id1 now1 qid uid =
        (some { attempt_id := id1, quiz_id := qid, user_id := uid,
                total_questions := (QuizRepository.get_questions_by_quiz db qid).length,
                is_completed := false, is_resumed := false },
         { db with attempts := db.attempts ++
            [{ id := id1, quiz_id := qid, user_id := uid, score := 0,
               total_questions := (QuizRepository.get_questions_by_quiz db qid).length,
               submitted_at := now1, is_completed := false }] }) := by
      simp [QuizService.start_quiz_attempt, hq, hno, QuizRepository.create_attempt]
    refine ⟨hfst, ?_⟩
    rw [hfst]
    have hq1 : QuizRepository.get_quiz_by_id
        { db with attempts := db.attempts ++
          [{ id := id1, quiz_id := qid, user_id := uid, score := 0,
             total_questions := (QuizRepository.get_questions_by_quiz db qid).length,
             submitted_at := now1, is_completed := false }] } qid = some quiz := hq
    have hon1 : QuizRepository.get_ongoing_attempt
        { db with attempts := db.attempts ++
          [{ id := id1, quiz_id := qid, user_id := uid, score := 0,
             total_questions := (QuizRepository.get_questions_by_quiz db qid).length,
             submitted_at := now1, is_completed := false }] } qid uid =
        some { id := id1, quiz_id := qid, user_id := uid, score := 0,
               total_questions := (QuizRepository.get_questions_by_quiz db qid).length,
               submitted_at := now1, is_completed := false } := by
      unfold QuizRepository.get_ongoing_attempt
      simp only [List.filter_append, hfilter]
      simp [sortByKeyDesc, insertByKeyDesc]
    simp [QuizService.start_quiz_attempt, hq1, hon1]
  · intro quiz a hq ha
    simp [QuizService.start_quiz_attempt, hq, ha]

/-- Witness for C5: on the sample database an unknown quiz yields None; a
fresh user gets a new attempt and then resumes it; the user with an ongoing
attempt resumes it directly. -/
theorem c5_start_or_resume_idempotent_witness :
    QuizRepository.get_quiz_by_id sampleDB "nope" = none ∧
    QuizService.start_quiz_attempt sampleDB "na" 1 "nope" "user2" = (none, sampleDB) ∧
    QuizRepository.get_quiz_by_id sampleDB "quiz1" = some sampleQuiz ∧
    QuizRepository.get_ongoing_attempt sampleDB "quiz1" "user2" = none ∧
    (QuizService.start_quiz_attempt sampleDB "att2" 5 "quiz1" "user2" =
      (some { attempt_id := "att2", quiz_id := "quiz1", user_id := "user2",
              total_questions := (QuizRepository.get_questions_by_quiz sampleDB "quiz1").length,
              is_completed := false, is_resumed := false },
       { sampleDB with attempts := sampleDB.attempts ++
          [{ id := "att2", quiz_id := "quiz1", user_id := "user2", score := 0,
             total_questions := (QuizRepository.get_questions_by_quiz sampleDB "quiz1").length,
             submitted_at := 5, is_completed := false }] }) ∧
     QuizService.start_quiz_attempt
        (QuizService.start_quiz_attempt sampleDB "att2" 5 "quiz1" "user2").2 "att3" 6
        "quiz1" "user2" =
      (some { attempt_id := "att2", quiz_id := "quiz1", user_id := "user2",
              total_questions := (QuizRepository.get_questions_by_quiz sampleDB "quiz1").length,
              is_completed := false, is_resumed := true },
       (QuizService.start_quiz_attempt sampleDB "att2" 5 "quiz1" "user2").2)) ∧
    QuizRepository.get_ongoing_attempt sampleDB "quiz1" "user1" = some sampleAttempt ∧
    QuizService.start_quiz_attempt sampleDB "att4" 7 "quiz1" "user1" =
      (some { attempt_id := "att1", quiz_id := "quiz1", user_id := "user1",
              total_questions := 2, is_completed := false, is_resumed := true },
       sampleDB) := by
  refine ⟨by decide,
    (c5_start_or_resume_idempotent sampleDB "na" "x" 1 2 "nope" "user2").1 (by decide),
    by decide, by decide,
    (c5_start_or_resume_idempotent sampleDB "att2" "att3" 5 6 "quiz1" "user2").2.1
      sampleQuiz (by decide) (by decide),
    by decide, ?_⟩
  have h := (c5_start_or_resume_idempotent sampleDB "att4" "x" 7 8 "quiz1" "user1").2.2
    sampleQuiz sampleAttempt (by decide) (by decide)
  exact h

/-- C6: Progress returns answered_questions equal to the number of recorded
Answers, remaining_questions equal to total minus answered, and a percentage
of 100 * answered / total rounded to 2 decimals when total is positive and 0
when total is 0; in particular 0 of 10 yields 0 and 10 of 10 yields 100. -/
theorem c6_progress_counts_and_percentage (db : DB) (aid : String) (att : Attempt)
    (hatt : QuizRepository.get_attempt_by_id db aid = some att) :
    QuizService.get_attempt_progress db aid = some
      { attempt_id := att.id, quiz_id := att.quiz_id, user_id := att.user_id,
        total_questions := att.total_questions,
        answered_questions := (db.answers.filter (fun x => x.attempt_id == aid)).length,
        remaining_questions := (att.total_questions : Int) -
          ((db.answers.filter (fun x => x.attempt_id == aid)).length : Int),
        progress_percentage :=
          if 0 < att.total_questions then
            pyRound2 (100 * ((db.answers.filter (fun x => x.attempt_id == aid)).length : ℚ)
              / (att.total_questions : ℚ))
          else 0,
        is_completed := att.is_completed,
        answered_details := QuizRepository.get_answered_questions_details db aid } ∧
    (att.total_questions = 10 →
      (db.answers.filter (fun x => x.attempt_id == aid)).length = 0 →
      (QuizService.get_attempt_progress db aid).map (fun r => r.progress_percentage) =
        some 0) ∧
    (att.total_questions = 10 →
      (db.answers.filter (fun x => x.attempt_id == aid)).length = 10 →
      (QuizService.get_attempt_progress db aid).map (fun r => r.progress_percentage) =
        some 100) ∧
    (att.total_questions = 0 →
      (QuizService.get_attempt_progress db aid).map (fun r => r.progress_percentage) =
        some 0) := by
  have hatt' : db.attempts.find? (fun a => a.id == aid) = some att := hatt
  have hmain : QuizService.get_attempt_progress db aid = some
      { attempt_id := att.id, quiz_id := att.quiz_id, user_id := att.user_id,
        total_questions := att.total_questions,
        answered_questions := (db.answers.filter (fun x => x.attempt_id == aid)).length,
        remaining_questions := (att.total_questions : Int) -
          ((db.answers.filter (fun x => x.attempt_id == aid)).length : Int),
        progress_percentage :=
          if 0 < att.total_questions then
            pyRound2 (100 * ((db.answers.filter (fun x => x.attempt_id == aid)).length : ℚ)
              / (att.total_questions : ℚ))
          else 0,
        is_completed := att.is_completed,
        answered_details := QuizRepository.get_answered_questions_details db aid } := by
    simp only [QuizService.get_attempt_progress, QuizRepository.get_attempt_progress, hatt']
    have harith : ((db.answers.filter (fun x => x.attempt_id == aid)).length : ℚ)
        / (att.total_questions : ℚ) * 100
        = 100 * ((db.answers.filter (fun x => x.attempt_id == aid)).length : ℚ)
          / (att.total_questions : ℚ) := by ring
    simp [harith]
  refine ⟨hmain, ?_, ?_, ?_⟩
  · intro h1 h2
    rw [hmain]
    simp only [Option.map_some']
    rw [h1, h2]
    norm_num
    have h0 := pyRound2_natCast 0
    norm_num at h0
    exact h0
  · intro h1 h2
    rw [hmain]
    simp only [Option.map_some']
    rw [h1, h2]
    norm_num
    have h100 := pyRound2_natCast 100
    norm_num at h100
    exact h100
  · intro h1
    rw [hmain]
    simp only [Option.map_some']
    rw [h1]
    norm_num

/-- Witness for C6: a 10 question attempt with no answers reports 0 percent,
with all ten answered reports 100 percent, a 0 question attempt reports 0,
and the full attempt reports 10 answered with 0 remaining. -/
theorem c6_progress_counts_and_percentage_witness :
    QuizRepository.get_attempt_by_id dbTenZero "att10" = some attemptTen ∧
    QuizRepository.get_attempt_by_id dbTenFull "att10" = some attemptTen ∧
    QuizRepository.get_attempt_by_id dbZero "att0" = some attemptZero ∧
    (QuizService.get_attempt_progress dbTenZero "att10").map
      (fun r => r.progress_percentage) = some 0 ∧
    (QuizService.get_attempt_progress dbTenFull "att10").map
      (fun r => r.progress_percentage) = some 100 ∧
    (QuizService.get_attempt_progress dbZero "att0").map
      (fun r => r.progress_percentage) = some 0 ∧
    (QuizService.get_attempt_progress dbTenFull "att10").map
      (fun r => (r.answered_questions, r.remaining_questions)) = some (10, 0) := by
  refine ⟨by decide, by decide, by decide, ?_, ?_, ?_, ?_⟩
  · exact (c6_progress_counts_and_percentage dbTenZero "att10" attemptTen
      (by decide)).2.1 (by decide) (by decide)
  · exact (c6_progress_counts_and_percentage dbTenFull "att10" attemptTen
      (by decide)).2.2.1 (by decide) (by decide)
  · exact (c6_progress_counts_and_percentage dbZero "att0" attemptZero
      (by decide)).2.2.2 (by decide)
  · rw [(c6_progress_counts_and_percentage dbTenFull "att10" attemptTen (by decide)).1]
    decide

/-- C7: the quiz-detail response exposes only id, content and category of
each option: relabelling the is_correct flag of every option row in the
store in any way leaves the response unchanged, so is_correct is never
present in it. -/
theorem c7_quiz_details_hide_correct_flag (db : DB) (qid : String)
    (f : QuizOption → Bool) :
    QuizService.get_quiz_details (relabelCorrect db f) qid =
      QuizService.get_quiz_details db qid := by
  have hopts : ∀ q : String,
      (QuizRepository.get_options_by_question (relabelCorrect db f) q).map
        (fun o => ({ id := o.id, content := o.content, category := o.category } :
          OptionDetail)) =
      (QuizRepository.get_options_by_question db q).map
        (fun o => ({ id := o.id, content := o.content, category := o.category } :
          OptionDetail)) := by
    intro q
    unfold QuizRepository.get_options_by_question relabelCorrect
    simp only []
    rw [filter_map_comm (fun o : QuizOption => o.question_id == q)
        (fun o => { o with is_correct := f o }) (fun a => rfl),
      ← sortByKey_map (fun o : QuizOption => o.created_at)
        (fun o => { o with is_correct := f o }) (fun a => rfl),
      List.map_map]
    rfl
  have hfun : (fun q : Question =>
      ({ id := q.id, question_text := q.question_text,
         question_category := q.question_category, explanation := q.explanation,
         options := (QuizRepository.get_options_by_question (relabelCorrect db f) q.id).map
           (fun o => ({ id := o.id, content := o.content, category := o.category } :
             OptionDetail)) } : QuestionDetail)) =
      (fun q : Question =>
      ({ id := q.id, question_text := q.question_text,
         question_category := q.question_category, explanation := q.explanation,
         options := (QuizRepository.get_options_by_question db q.id).map
           (fun o => ({ id := o.id, content := o.content, category := o.category } :
             OptionDetail)) } : QuestionDetail)) := by
    funext q
    rw [hopts q.id]
  unfold QuizService.get_quiz_details
  have hq : QuizRepository.get_quiz_by_id (relabelCorrect db f) qid =
      QuizRepository.get_quiz_by_id db qid := rfl
  have hqs : QuizRepository.get_questions_by_quiz (relabelCorrect db f) qid =
      QuizRepository.get_questions_by_quiz db qid := rfl
  rw [hq, hqs, hfun]

/-- C8: registration with an email already belonging to an existing user
fails with the "Email already registered" conflict and stores no new user
row; a free email with a taken username fails with "Username already taken"
and stores no new user row. -/
theorem c8_register_duplicate_conflicts (users : List User) (newId : String)
    (now : Nat) (hashFn : String → String) (email username password : String) :
    (∀ u : User, UserRepository.get_by_email users email = some u →
      UserService.register users newId now hashFn email username password =
        (.error { status_code := 400, detail := "Email already registered" }, users)) ∧
    (UserRepository.get_by_email users email = none →
      ∀ v : User, UserRepository.get_by_username users username = some v →
      UserService.register users newId now hashFn email username password =
        (.error { status_code := 400, detail := "Username already taken" }, users)) := by
  constructor
  · intro u h
    simp [UserService.register, h]
  · intro h v hv
    simp [UserService.register, h, hv]

/-- Witness for C8: registering a second time with the stored email fails
with the email conflict, and a fresh email with the stored username fails
with the username conflict, the user table unchanged in both cases. -/
theorem c8_register_duplicate_conflicts_witness :
    UserRepository.get_by_email sampleUsers "a@x.com" = some sampleUser ∧
    UserService.register sampleUsers "u2" 5 (fun s => s) "a@x.com" "bob" "pw" =
      (.error { status_code := 400, detail := "Email already registered" }, sampleUsers) ∧
    UserRepository.get_by_email sampleUsers "b@x.com" = none ∧
    UserRepository.get_by_username sampleUsers "alice" = some sampleUser ∧
    UserService.register sampleUsers "u2" 5 (fun s => s) "b@x.com" "alice" "pw" =
      (.error { status_code := 400, detail := "Username already taken" }, sampleUsers) := by
  refine ⟨by decide, ?_, by decide, by decide, ?_⟩
  · exact (c8_register_duplicate_conflicts sampleUsers "u2" 5 (fun s => s)
      "a@x.com" "bob" "pw").1 sampleUser (by decide)
  · exact (c8_register_duplicate_conflicts sampleUsers "u2" 5 (fun s => s)
      "b@x.com" "alice" "pw").2 (by decide) sampleUser (by decide)

/-- C9: a successful SubmitCameraAnswer stores an Answer referencing the
first listed option of the question; the caller-supplied is_correct flag is
only echoed in the response and does not influence the stored state, and the
subsequent score count over the recorded answers counts the stored option's
own is_correct flag. -/
theorem c9_camera_answer_first_option_and_score (db : DB) (newId : String)
    (now : Nat) (aid qid : String) (att : Attempt) (q : Question)
    (opt0 : QuizOption) (b : Bool)
    (hatt : QuizRepository.get_attempt_by_id db aid = some att)
    (hdone : att.is_completed = false)
    (hnone : QuizRepository.get_answer_by_attempt_question db aid qid = none)
    (hq : QuizRepository.get_question_by_id db qid = some q)
    (hhead : (QuizRepository.get_options_by_question db qid).head? = some opt0)
    (hlookup : QuizRepository.get_option_by_id db opt0.id = some opt0) :
    (QuizService.submit_camera_answer db newId now aid qid b).1 =
      { error := false, code := .SUCCESS,
        message := "Camera answer submitted successfully",
        data := .cameraData newId aid qid b } ∧
    (QuizService.submit_camera_answer db newId now aid qid b).2 =
      { db with answers := db.answers ++
        [{ id := newId, attempt_id := aid, question_id := qid,
           selected_option_id := opt0.id, created_at := now }] } ∧
    (∀ b2 : Bool, (QuizService.submit_camera_answer db newId now aid qid b2).2 =
      (QuizService.submit_camera_answer db newId now aid qid b).2) ∧
    QuizService.count_correct (QuizService.submit_camera_answer db newId now aid qid b).2
        (QuizRepository.get_attempt_answers
          (QuizService.submit_camera_answer db newId now aid qid b).2 aid) =
      QuizService.count_correct db (QuizRepository.get_attempt_answers db aid) +
        (if opt0.is_correct then 1 else 0) := by
  have hstate : ∀ c : Bool, (QuizService.submit_camera_answer db newId now aid qid c).2 =
      { db with answers := db.answers ++
        [{ id := newId, attempt_id := aid, question_id := qid,
           selected_option_id := opt0.id, created_at := now }] } := by
    intro c
    simp [QuizService.submit_camera_answer, hatt, hdone, hnone, hq, hhead,
      QuizRepository.create_attempt_answer]
  have hresp : (QuizService.submit_camera_answer db newId now aid qid b).1 =
      { error := false, code := .SUCCESS,
        message := "Camera answer submitted successfully",
        data := .cameraData newId aid qid b } := by
    simp [QuizService.submit_camera_answer, hatt, hdone, hnone, hq, hhead,
      QuizRepository.create_attempt_answer]
  refine ⟨hresp, hstate b, fun b2 => by rw [hstate b2, hstate b], ?_⟩
  rw [hstate b]
  have hopt : ∀ x : String, QuizRepository.get_option_by_id
      { db with answers := db.answers ++
        [{ id := newId, attempt_id := aid, question_id := qid,
           selected_option_id := opt0.id, created_at := now }] } x =
      QuizRepository.get_option_by_id db x := fun x => rfl
  simp only [QuizService.count_correct, QuizRepository.get_attempt_answers, hopt]
  simp only [List.filter_append, countP_sortByKey]
  rw [List.countP_append]
  have hsingle : List.filter (fun a : Answer => a.attempt_id == aid)
      [{ id := newId, attempt_id := aid, question_id := qid,
         selected_option_id := opt0.id, created_at := now }] =
      [{ id := newId, attempt_id := aid, question_id := qid,
         selected_option_id := opt0.id, created_at := now }] := by simp
  rw [hsingle]
  simp [List.countP_cons, hlookup]

/-- Witness for C9: a camera answer on the sample camera question stores the
first listed option optC regardless of the supplied flag, echoes the flag,
and the stored option's own flag feeds the score count. -/
theorem c9_camera_answer_first_option_and_score_witness :
    QuizRepository.get_attempt_by_id sampleDB "att1" = some sampleAttempt ∧
    sampleAttempt.is_completed = false ∧
    QuizRepository.get_answer_by_attempt_question sampleDB "att1" "ques2" = none ∧
    QuizRepository.get_question_by_id sampleDB "ques2" = some sampleQues2 ∧
    (QuizRepository.get_options_by_question sampleDB "ques2").head? = some sampleOptC ∧
    QuizRepository.get_option_by_id sampleDB "optC" = some sampleOptC ∧
    ((QuizService.submit_camera_answer sampleDB "ansC" 4 "att1" "ques2" true).1 =
      { error := false, code := .SUCCESS,
        message := "Camera answer submitted successfully",
        data := .cameraData "ansC" "att1" "ques2" true } ∧
    (QuizService.submit_camera_answer sampleDB "ansC" 4 "att1" "ques2" true).2 =
      { sampleDB with answers := sampleDB.answers ++
        [{ id := "ansC", attempt_id := "att1", question_id := "ques2",
           selected_option_id := sampleOptC.id, created_at := 4 }] } ∧
    (∀ b2 : Bool, (QuizService.submit_camera_answer sampleDB "ansC" 4 "att1" "ques2" b2).2 =
      (QuizService.submit_camera_answer sampleDB "ansC" 4 "att1" "ques2" true).2) ∧
    QuizService.count_correct
        (QuizService.submit_camera_answer sampleDB "ansC" 4 "att1" "ques2" true).2
        (QuizRepository.get_attempt_answers
          (QuizService.submit_camera_answer sampleDB "ansC" 4 "att1" "ques2" true).2
          "att1") =
      QuizService.count_correct sampleDB (QuizRepository.get_attempt_answers sampleDB "att1") +
        (if sampleOptC.is_correct then 1 else 0)) :=
  ⟨by decide, by decide, by decide, by decide, by decide, by decide,
    c9_camera_answer_first_option_and_score sampleDB "ansC" 4 "att1" "ques2"
      sampleAttempt sampleQues2 sampleOptC true
      (by decide) (by decide) (by decide) (by decide) (by decide) (by decide)⟩

/-- C10: on an attempt whose total_questions snapshot is 0, SubmitQuiz and
Result hit the unguarded division and raise ZeroDivisionError, while
Progress succeeds with percentage 0 because its division is guarded. -/
theorem c10_zero_total_questions_division (db : DB) (now : Nat) (aid : String)
    (att : Attempt)
    (hatt : QuizRepository.get_attempt_by_id db aid = some att)
    (htot : att.total_questions = 0) :
    (QuizService.submit_quiz db now aid).2 = Except.error PyErr.zeroDivision ∧
    QuizService.get_attempt_result db aid = Except.error PyErr.zeroDivision ∧
    (∃ r : AttemptProgress, QuizService.get_attempt_progress db aid = some r ∧
      r.progress_percentage = 0) := by
  refine ⟨?_, ?_, ?_⟩
  · have hupd := find?_map_update db.attempts aid
      (fun a => { a with
        score := QuizService.count_correct db (QuizRepository.get_attempt_answers db aid),
        is_completed := true, submitted_at := now }) (fun a => rfl) att hatt
    simp only [QuizService.submit_quiz, hatt, QuizRepository.update_attempt_score]
    rw [hupd]
    simp [htot]
  · simp [QuizService.get_attempt_result, hatt, htot]
  · have hatt' : db.attempts.find? (fun a => a.id == aid) = some att := hatt
    simp only [QuizService.get_attempt_progress, QuizRepository.get_attempt_progress, hatt']
    refine ⟨_, rfl, ?_⟩
    simp [htot]

/-- Witness for C10: on the zero-question attempt, SubmitQuiz and Result
raise the division error and Progress reports 0 percent. -/
theorem c10_zero_total_questions_division_witness :
    QuizRepository.get_attempt_by_id dbZero "att0" = some attemptZero ∧
    attemptZero.total_questions = 0 ∧
    ((QuizService.submit_quiz dbZero 5 "att0").2 = Except.error PyErr.zeroDivision ∧
     QuizService.get_attempt_result dbZero "att0" = Except.error PyErr.zeroDivision ∧
     (∃ r : AttemptProgress, QuizService.get_attempt_progress dbZero "att0" = some r ∧
       r.progress_percentage = 0)) :=
  ⟨by decide, by decide, c10_zero_total_questions_division dbZero 5 "att0" attemptZero
    (by decide) (by decide)⟩
